import Mathlib

/-!
Verification of the Nextcloud storage adapter and its conformance mock.

The embedding below follows two source files:
- the Nextcloud server mock (package nextcloud, `GetNextcloudServerMock` and
  its `responses` transition table), and
- the storage driver stub `pkg/storage/fs/nextcloud/nextcloud.go`.

Go machine behavior mirrored here: a Go map lookup `responses[key]` yields the
zero value `Response{}` when the key is absent; the handler compares the
result against `Response{}` to detect a miss.
-/

set_option maxRecDepth 100000

namespace Nextcloud

/-- Response contains data for the Nextcloud mock server to respond and to
switch to a new server state (fields code, body, newServerState). -/
structure Response where
  code : Nat
  body : String
  newServerState : String
deriving DecidableEq, Repr

/-- The zero value `Response\x7b\x7d` of the Go struct. -/
def zeroResponse : Response := ⟨0, "", ""⟩

def serverStateError : String := "ERROR"
def serverStateEmpty : String := "EMPTY"
def serverStateHome : String := "HOME"
def serverStateSubdir : String := "SUBDIR"
def serverStateNewdir : String := "NEWDIR"
def serverStateSubdirNewdir : String := "SUBDIR-NEWDIR"
def serverStateFileRestored : String := "FILE-RESTORED"
def serverStateGrantAdded : String := "GRANT-ADDED"
def serverStateGrantUpdated : String := "GRANT-UPDATED"
def serverStateRecycle : String := "RECYCLE"
def serverStateReference : String := "REFERENCE"
def serverStateMetadata : String := "METADATA"

/-- The transition table of the Nextcloud server mock, transcribed entry by
entry from the responses map literal; keys are the literal call signatures. -/
def responses : List (String × Response) := [
  Prod.mk "POST /apps/sciencemesh/~einstein/api/AddGrant \x7b\"path\":\"/subdir\"\x7d" (Response.mk 200 "" serverStateGrantAdded),
  Prod.mk "POST /apps/sciencemesh/~einstein/api/CreateDir \x7b\"path\":\"/subdir\"\x7d EMPTY" (Response.mk 200 "" serverStateSubdir),
  Prod.mk "POST /apps/sciencemesh/~einstein/api/CreateDir \x7b\"path\":\"/subdir\"\x7d HOME" (Response.mk 200 "" serverStateSubdir),
  Prod.mk "POST /apps/sciencemesh/~einstein/api/CreateDir \x7b\"path\":\"/subdir\"\x7d NEWDIR" (Response.mk 200 "" serverStateSubdirNewdir),
  Prod.mk "POST /apps/sciencemesh/~einstein/api/CreateDir \x7b\"path\":\"/newdir\"\x7d EMPTY" (Response.mk 200 "" serverStateNewdir),
  Prod.mk "POST /apps/sciencemesh/~einstein/api/CreateDir \x7b\"path\":\"/newdir\"\x7d HOME" (Response.mk 200 "" serverStateNewdir),
  Prod.mk "POST /apps/sciencemesh/~einstein/api/CreateDir \x7b\"path\":\"/newdir\"\x7d SUBDIR" (Response.mk 200 "" serverStateSubdirNewdir),
  Prod.mk "POST /apps/sciencemesh/~einstein/api/CreateHome " (Response.mk 200 "" serverStateHome),
  Prod.mk "POST /apps/sciencemesh/~einstein/api/CreateHome \x7b\x7d" (Response.mk 200 "" serverStateHome),
  Prod.mk "POST /apps/sciencemesh/~einstein/api/CreateReference \x7b\"path\":\"/Shares/reference\"\x7d" (Response.mk 200 "[]" serverStateReference),
  Prod.mk "POST /apps/sciencemesh/~einstein/api/Delete \x7b\"path\":\"/subdir\"\x7d" (Response.mk 200 "" serverStateRecycle),
  Prod.mk "POST /apps/sciencemesh/~einstein/api/EmptyRecycle " (Response.mk 200 "" serverStateEmpty),
  Prod.mk "POST /apps/sciencemesh/~einstein/api/GetMD \x7b\"path\":\"/\"\x7d EMPTY" (Response.mk 404 "" serverStateEmpty),
  Prod.mk "POST /apps/sciencemesh/~einstein/api/GetMD \x7b\"path\":\"/\"\x7d HOME" (Response.mk 200 "\x7b \"size\": 1 \x7d" serverStateHome),
  Prod.mk "POST /apps/sciencemesh/~einstein/api/GetMD \x7b\"path\":\"/newdir\"\x7d EMPTY" (Response.mk 404 "" serverStateEmpty),
  Prod.mk "POST /apps/sciencemesh/~einstein/api/GetMD \x7b\"path\":\"/newdir\"\x7d HOME" (Response.mk 404 "" serverStateHome),
  Prod.mk "POST /apps/sciencemesh/~einstein/api/GetMD \x7b\"path\":\"/newdir\"\x7d SUBDIR" (Response.mk 404 "" serverStateSubdir),
  Prod.mk "POST /apps/sciencemesh/~einstein/api/GetMD \x7b\"path\":\"/newdir\"\x7d NEWDIR" (Response.mk 200 "\x7b \"size\": 1 \x7d" serverStateNewdir),
  Prod.mk "POST /apps/sciencemesh/~einstein/api/GetMD \x7b\"path\":\"/newdir\"\x7d SUBDIR-NEWDIR" (Response.mk 200 "\x7b \"size\": 1 \x7d" serverStateSubdirNewdir),
  Prod.mk "POST /apps/sciencemesh/~einstein/api/GetMD \x7b\"path\":\"/new_subdir\"\x7d" (Response.mk 200 "\x7b \"size\": 1 \x7d" serverStateEmpty),
  Prod.mk "POST /apps/sciencemesh/~einstein/api/GetMD \x7b\"path\":\"/subdir\"\x7d EMPTY" (Response.mk 404 "" serverStateEmpty),
  Prod.mk "POST /apps/sciencemesh/~einstein/api/GetMD \x7b\"path\":\"/subdir\"\x7d HOME" (Response.mk 404 "" serverStateEmpty),
  Prod.mk "POST /apps/sciencemesh/~einstein/api/GetMD \x7b\"path\":\"/subdir\"\x7d NEWDIR" (Response.mk 404 "" serverStateEmpty),
  Prod.mk "POST /apps/sciencemesh/~einstein/api/GetMD \x7b\"path\":\"/subdir\"\x7d RECYCLE" (Response.mk 404 "" serverStateRecycle),
  Prod.mk "POST /apps/sciencemesh/~einstein/api/GetMD \x7b\"path\":\"/subdir\"\x7d SUBDIR" (Response.mk 200 "\x7b \"size\": 1 \x7d" serverStateEmpty),
  Prod.mk "POST /apps/sciencemesh/~einstein/api/GetMD \x7b\"path\":\"/subdir\"\x7d SUBDIR-NEWDIR" (Response.mk 200 "\x7b \"size\": 1 \x7d" serverStateEmpty),
  Prod.mk "POST /apps/sciencemesh/~einstein/api/GetMD \x7b\"path\":\"/subdir\"\x7d METADATA" (Response.mk 200 "\x7b \"size\": 1, \"metadata\": \x7b \"foo\": \"bar\" \x7d \x7d" serverStateMetadata),
  Prod.mk "POST /apps/sciencemesh/~einstein/api/GetMD \x7b\"path\":\"/subdirRestored\"\x7d EMPTY" (Response.mk 404 "" serverStateEmpty),
  Prod.mk "POST /apps/sciencemesh/~einstein/api/GetMD \x7b\"path\":\"/subdirRestored\"\x7d RECYCLE" (Response.mk 404 "" serverStateRecycle),
  Prod.mk "POST /apps/sciencemesh/~einstein/api/GetMD \x7b\"path\":\"/subdirRestored\"\x7d SUBDIR" (Response.mk 404 "" serverStateSubdir),
  Prod.mk "POST /apps/sciencemesh/~einstein/api/GetMD \x7b\"path\":\"/subdirRestored\"\x7d FILE-RESTORED" (Response.mk 200 "\x7b \"size\": 1 \x7d" serverStateFileRestored),
  Prod.mk "POST /apps/sciencemesh/~einstein/api/GetMD \x7b\"path\":\"/versionedFile\"\x7d EMPTY" (Response.mk 200 "\x7b \"size\": 2 \x7d" serverStateEmpty),
  Prod.mk "POST /apps/sciencemesh/~einstein/api/GetMD \x7b\"path\":\"/versionedFile\"\x7d FILE-RESTORED" (Response.mk 200 "\x7b \"size\": 1 \x7d" serverStateFileRestored),
  Prod.mk "POST /apps/sciencemesh/~einstein/api/GetPathByID \x7b\"storage_id\":\"00000000-0000-0000-0000-000000000000\",\"opaque_id\":\"fileid-%2Fsubdir\"\x7d" (Response.mk 200 "/subdir" serverStateEmpty),
  Prod.mk "POST /apps/sciencemesh/~einstein/api/InitiateUpload \x7b\"path\":\"/file\"\x7d" (Response.mk 200 "\x7b\"simple\": \"yes\",\"tus\": \"yes\"\x7d" serverStateEmpty),
  Prod.mk "POST /apps/sciencemesh/~einstein/api/ListFolder \x7b\"path\":\"/\"\x7d" (Response.mk 200 "[\"/subdir\"]" serverStateEmpty),
  Prod.mk "POST /apps/sciencemesh/~einstein/api/ListFolder \x7b\"path\":\"/Shares\"\x7d EMPTY" (Response.mk 404 "" serverStateEmpty),
  Prod.mk "POST /apps/sciencemesh/~einstein/api/ListFolder \x7b\"path\":\"/Shares\"\x7d SUBDIR" (Response.mk 404 "" serverStateSubdir),
  Prod.mk "POST /apps/sciencemesh/~einstein/api/ListFolder \x7b\"path\":\"/Shares\"\x7d REFERENCE" (Response.mk 200 "[\"reference\"]" serverStateReference),
  Prod.mk "POST /apps/sciencemesh/~einstein/api/ListGrants \x7b\"path\":\"/subdir\"\x7d SUBDIR" (Response.mk 200 "[]" serverStateEmpty),
  Prod.mk "POST /apps/sciencemesh/~einstein/api/ListGrants \x7b\"path\":\"/subdir\"\x7d GRANT-ADDED" (Response.mk 200 "[ \x7b \"stat\": true, \"move\": true, \"delete\": false \x7d ]" serverStateEmpty),
  Prod.mk "POST /apps/sciencemesh/~einstein/api/ListGrants \x7b\"path\":\"/subdir\"\x7d GRANT-UPDATED" (Response.mk 200 "[ \x7b \"stat\": true, \"move\": true, \"delete\": true \x7d ]" serverStateEmpty),
  Prod.mk "POST /apps/sciencemesh/~einstein/api/ListRecycle  EMPTY" (Response.mk 200 "[]" serverStateEmpty),
  Prod.mk "POST /apps/sciencemesh/~einstein/api/ListRecycle  RECYCLE" (Response.mk 200 "[\"/subdir\"]" serverStateRecycle),
  Prod.mk "POST /apps/sciencemesh/~einstein/api/ListRevisions \x7b\"path\":\"/versionedFile\"\x7d EMPTY" (Response.mk 500 "[1]" serverStateEmpty),
  Prod.mk "POST /apps/sciencemesh/~einstein/api/ListRevisions \x7b\"path\":\"/versionedFile\"\x7d FILE-RESTORED" (Response.mk 500 "[1, 2]" serverStateFileRestored),
  Prod.mk "POST /apps/sciencemesh/~einstein/api/Move \x7b\"from\":\"/subdir\",\"to\":\"/new_subdir\"\x7d" (Response.mk 200 "" serverStateEmpty),
  Prod.mk "POST /apps/sciencemesh/~einstein/api/RemoveGrant \x7b\"path\":\"/subdir\"\x7d GRANT-ADDED" (Response.mk 200 "" serverStateGrantUpdated),
  Prod.mk "POST /apps/sciencemesh/~einstein/api/RestoreRecycleItem null" (Response.mk 200 "" serverStateSubdir),
  Prod.mk "POST /apps/sciencemesh/~einstein/api/RestoreRecycleItem \x7b\"path\":\"/subdirRestored\"\x7d" (Response.mk 200 "" serverStateFileRestored),
  Prod.mk "POST /apps/sciencemesh/~einstein/api/RestoreRevision \x7b\"path\":\"/versionedFile\"\x7d" (Response.mk 200 "" serverStateFileRestored),
  Prod.mk "POST /apps/sciencemesh/~einstein/api/SetArbitraryMetadata \x7b\"metadata\":\x7b\"foo\":\"bar\"\x7d\x7d" (Response.mk 200 "" serverStateMetadata),
  Prod.mk "POST /apps/sciencemesh/~einstein/api/UnsetArbitraryMetadata \x7b\"path\":\"/subdir\"\x7d" (Response.mk 200 "" serverStateSubdir),
  Prod.mk "POST /apps/sciencemesh/~einstein/api/UpdateGrant \x7b\"path\":\"/subdir\"\x7d" (Response.mk 200 "" serverStateGrantUpdated),
  Prod.mk "POST /apps/sciencemesh/~tester/api/GetHome " (Response.mk 200 "yes we are" serverStateHome),
  Prod.mk "POST /apps/sciencemesh/~tester/api/CreateHome " (Response.mk 201 "" serverStateEmpty),
  Prod.mk "POST /apps/sciencemesh/~tester/api/CreateDir \x7b\"resource_id\":\x7b\"storage_id\":\"storage-id\",\"opaque_id\":\"opaque-id\"\x7d,\"path\":\"/some/path\"\x7d" (Response.mk 201 "" serverStateEmpty),
  Prod.mk "POST /apps/sciencemesh/~tester/api/Delete \x7b\"resource_id\":\x7b\"storage_id\":\"storage-id\",\"opaque_id\":\"opaque-id\"\x7d,\"path\":\"/some/path\"\x7d" (Response.mk 200 "" serverStateEmpty),
  Prod.mk "POST /apps/sciencemesh/~tester/api/Move \x7b\"oldRef\":\x7b\"resource_id\":\x7b\"storage_id\":\"storage-id-1\",\"opaque_id\":\"opaque-id-1\"\x7d,\"path\":\"/some/old/path\"\x7d,\"newRef\":\x7b\"resource_id\":\x7b\"storage_id\":\"storage-id-2\",\"opaque_id\":\"opaque-id-2\"\x7d,\"path\":\"/some/new/path\"\x7d\x7d" (Response.mk 200 "" serverStateEmpty),
  Prod.mk "POST /apps/sciencemesh/~tester/api/GetMD \x7b\"ref\":\x7b\"resource_id\":\x7b\"storage_id\":\"storage-id\",\"opaque_id\":\"opaque-id\"\x7d,\"path\":\"/some/path\"\x7d,\"mdKeys\":[\"val1\",\"val2\",\"val3\"]\x7d" (Response.mk 200 "\x7b\"opaque\":\x7b\x7d,\"type\":1,\"id\":\x7b\"opaque_id\":\"fileid-/some/path\"\x7d,\"checksum\":\x7b\x7d,\"etag\":\"deadbeef\",\"mime_type\":\"text/plain\",\"mtime\":\x7b\"seconds\":1234567890\x7d,\"path\":\"/some/path\",\"permission_set\":\x7b\x7d,\"size\":12345,\"canonical_metadata\":\x7b\x7d,\"arbitrary_metadata\":\x7b\"metadata\":\x7b\"da\":\"ta\",\"some\":\"arbi\",\"trary\":\"meta\"\x7d\x7d\x7d" serverStateEmpty),
  Prod.mk "POST /apps/sciencemesh/~tester/api/ListFolder \x7b\"ref\":\x7b\"resource_id\":\x7b\"storage_id\":\"storage-id\",\"opaque_id\":\"opaque-id\"\x7d,\"path\":\"/some/path\"\x7d,\"mdKeys\":[\"val1\",\"val2\",\"val3\"]\x7d" (Response.mk 200 "[\x7b\"opaque\":\x7b\x7d,\"type\":1,\"id\":\x7b\"opaque_id\":\"fileid-/some/path\"\x7d,\"checksum\":\x7b\x7d,\"etag\":\"deadbeef\",\"mime_type\":\"text/plain\",\"mtime\":\x7b\"seconds\":1234567890\x7d,\"path\":\"/some/path\",\"permission_set\":\x7b\x7d,\"size\":12345,\"canonical_metadata\":\x7b\x7d,\"arbitrary_metadata\":\x7b\"metadata\":\x7b\"da\":\"ta\",\"some\":\"arbi\",\"trary\":\"meta\"\x7d\x7d\x7d]" serverStateEmpty),
  Prod.mk "POST /apps/sciencemesh/~tester/api/InitiateUpload \x7b\"ref\":\x7b\"resource_id\":\x7b\"storage_id\":\"storage-id\",\"opaque_id\":\"opaque-id\"\x7d,\"path\":\"/some/path\"\x7d,\"uploadLength\":12345,\"metadata\":\x7b\"key1\":\"val1\",\"key2\":\"val2\",\"key3\":\"val3\"\x7d\x7d" (Response.mk 200 "\x7b \"not\":\"sure\", \"what\": \"should be\", \"returned\": \"here\" \x7d" serverStateEmpty),
  Prod.mk "PUT /apps/sciencemesh/~tester/api/Upload/some/file/path.txt shiny!" (Response.mk 200 "" serverStateEmpty),
  Prod.mk "GET /apps/sciencemesh/~tester/api/Download/some/file/path.txt " (Response.mk 200 "the contents of the file" serverStateEmpty),
  Prod.mk "POST /apps/sciencemesh/~tester/api/ListRevisions \x7b\"resource_id\":\x7b\"storage_id\":\"storage-id\",\"opaque_id\":\"opaque-id\"\x7d,\"path\":\"/some/path\"\x7d" (Response.mk 200 "[\x7b\"opaque\":\x7b\"map\":\x7b\"some\":\x7b\"value\":\"ZGF0YQ==\"\x7d\x7d\x7d,\"key\":\"version-12\",\"size\":12345,\"mtime\":1234567890,\"etag\":\"deadb00f\"\x7d,\x7b\"opaque\":\x7b\"map\":\x7b\"different\":\x7b\"value\":\"c3R1ZmY=\"\x7d\x7d\x7d,\"key\":\"asdf\",\"size\":12345,\"mtime\":1234567890,\"etag\":\"deadbeef\"\x7d]" serverStateEmpty),
  Prod.mk "GET /apps/sciencemesh/~tester/api/DownloadRevision/some%2Frevision/some/file/path.txt " (Response.mk 200 "the contents of that revision" serverStateEmpty),
  Prod.mk "POST /apps/sciencemesh/~tester/api/RestoreRevision \x7b\"ref\":\x7b\"resource_id\":\x7b\"storage_id\":\"storage-id\",\"opaque_id\":\"opaque-id\"\x7d,\"path\":\"some/file/path.txt\"\x7d,\"key\":\"asdf\"\x7d" (Response.mk 200 "" serverStateEmpty),
  Prod.mk "POST /apps/sciencemesh/~tester/api/ListRecycle \x7b\"key\":\"asdf\",\"path\":\"/some/file.txt\"\x7d" (Response.mk 200 "[\x7b\"opaque\":\x7b\x7d,\"key\":\"some-deleted-version\",\"ref\":\x7b\"resource_id\":\x7b\x7d,\"path\":\"/some/file.txt\"\x7d,\"size\":12345,\"deletion_time\":\x7b\"seconds\":1234567890\x7d\x7d]" serverStateEmpty),
  Prod.mk "POST /apps/sciencemesh/~tester/api/RestoreRecycleItem \x7b\"key\":\"asdf\",\"path\":\"original/location/when/deleted.txt\",\"restoreRef\":\x7b\"resource_id\":\x7b\"storage_id\":\"storage-id\",\"opaque_id\":\"opaque-id\"\x7d,\"path\":\"some/file/path.txt\"\x7d\x7d" (Response.mk 200 "" serverStateEmpty),
  Prod.mk "POST /apps/sciencemesh/~tester/api/PurgeRecycleItem \x7b\"key\":\"asdf\",\"path\":\"original/location/when/deleted.txt\"\x7d" (Response.mk 200 "" serverStateEmpty),
  Prod.mk "POST /apps/sciencemesh/~tester/api/EmptyRecycle " (Response.mk 200 "" serverStateEmpty),
  Prod.mk "POST /apps/sciencemesh/~tester/api/GetPathByID \x7b\"storage_id\":\"storage-id\",\"opaque_id\":\"opaque-id\"\x7d" (Response.mk 200 "the/path/for/that/id.txt" serverStateEmpty),
  Prod.mk "POST /apps/sciencemesh/~tester/api/AddGrant \x7b\"ref\":\x7b\"resource_id\":\x7b\"storage_id\":\"storage-id\",\"opaque_id\":\"opaque-id\"\x7d,\"path\":\"some/file/path.txt\"\x7d,\"g\":\x7b\"grantee\":\x7b\"Id\":\x7b\"UserId\":\x7b\"idp\":\"0.0.0.0:19000\",\"opaque_id\":\"f7fbf8c8-139b-4376-b307-cf0a8c2d0d9c\",\"type\":1\x7d\x7d\x7d,\"permissions\":\x7b\"add_grant\":true,\"create_container\":true,\"delete\":true,\"get_path\":true,\"get_quota\":true,\"initiate_file_download\":true,\"initiate_file_upload\":true,\"list_grants\":true,\"list_container\":true,\"list_file_versions\":true,\"list_recycle\":true,\"move\":true,\"remove_grant\":true,\"purge_recycle\":true,\"restore_file_version\":true,\"restore_recycle_item\":true,\"stat\":true,\"update_grant\":true,\"deny_grant\":true\x7d\x7d\x7d" (Response.mk 200 "" serverStateEmpty),
  Prod.mk "POST /apps/sciencemesh/~tester/api/DenyGrant \x7b\"ref\":\x7b\"resource_id\":\x7b\"storage_id\":\"storage-id\",\"opaque_id\":\"opaque-id\"\x7d,\"path\":\"some/file/path.txt\"\x7d,\"g\":\x7b\"Id\":\x7b\"UserId\":\x7b\"idp\":\"0.0.0.0:19000\",\"opaque_id\":\"f7fbf8c8-139b-4376-b307-cf0a8c2d0d9c\",\"type\":1\x7d\x7d\x7d\x7d" (Response.mk 200 "" serverStateEmpty),
  Prod.mk "POST /apps/sciencemesh/~tester/api/RemoveGrant \x7b\"ref\":\x7b\"resource_id\":\x7b\"storage_id\":\"storage-id\",\"opaque_id\":\"opaque-id\"\x7d,\"path\":\"some/file/path.txt\"\x7d,\"g\":\x7b\"grantee\":\x7b\"Id\":\x7b\"UserId\":\x7b\"idp\":\"0.0.0.0:19000\",\"opaque_id\":\"f7fbf8c8-139b-4376-b307-cf0a8c2d0d9c\",\"type\":1\x7d\x7d\x7d,\"permissions\":\x7b\"add_grant\":true,\"create_container\":true,\"delete\":true,\"get_path\":true,\"get_quota\":true,\"initiate_file_download\":true,\"initiate_file_upload\":true,\"list_grants\":true,\"list_container\":true,\"list_file_versions\":true,\"list_recycle\":true,\"move\":true,\"remove_grant\":true,\"purge_recycle\":true,\"restore_file_version\":true,\"restore_recycle_item\":true,\"stat\":true,\"update_grant\":true,\"deny_grant\":true\x7d\x7d\x7d" (Response.mk 200 "" serverStateEmpty),
  Prod.mk "POST /apps/sciencemesh/~tester/api/UpdateGrant \x7b\"ref\":\x7b\"resource_id\":\x7b\"storage_id\":\"storage-id\",\"opaque_id\":\"opaque-id\"\x7d,\"path\":\"some/file/path.txt\"\x7d,\"g\":\x7b\"grantee\":\x7b\"Id\":\x7b\"UserId\":\x7b\"idp\":\"0.0.0.0:19000\",\"opaque_id\":\"f7fbf8c8-139b-4376-b307-cf0a8c2d0d9c\",\"type\":1\x7d\x7d\x7d,\"permissions\":\x7b\"add_grant\":true,\"create_container\":true,\"delete\":true,\"get_path\":true,\"get_quota\":true,\"initiate_file_download\":true,\"initiate_file_upload\":true,\"list_grants\":true,\"list_container\":true,\"list_file_versions\":true,\"list_recycle\":true,\"move\":true,\"remove_grant\":true,\"purge_recycle\":true,\"restore_file_version\":true,\"restore_recycle_item\":true,\"stat\":true,\"update_grant\":true,\"deny_grant\":true\x7d\x7d\x7d" (Response.mk 200 "" serverStateEmpty),
  Prod.mk "POST /apps/sciencemesh/~tester/api/ListGrants \x7b\"resource_id\":\x7b\"storage_id\":\"storage-id\",\"opaque_id\":\"opaque-id\"\x7d,\"path\":\"some/file/path.txt\"\x7d" (Response.mk 200 "[\x7b\"grantee\":\x7b\"type\":1,\"Id\":\x7b\"UserId\":\x7b\"idp\":\"some-idp\",\"opaque_id\":\"some-opaque-id\",\"type\":1\x7d\x7d\x7d,\"permissions\":\x7b\"add_grant\":true,\"create_container\":true,\"delete\":true,\"get_path\":true,\"get_quota\":true,\"initiate_file_download\":true,\"initiate_file_upload\":true,\"list_grants\":true,\"list_container\":true,\"list_file_versions\":true,\"list_recycle\":true,\"move\":true,\"remove_grant\":true,\"purge_recycle\":true,\"restore_file_version\":true,\"restore_recycle_item\":true,\"stat\":true,\"update_grant\":true,\"deny_grant\":true\x7d\x7d]" serverStateEmpty),
  Prod.mk "POST /apps/sciencemesh/~tester/api/GetQuota " (Response.mk 200 "\x7b\"maxBytes\":456,\"maxFiles\":123\x7d" serverStateEmpty),
  Prod.mk "POST /apps/sciencemesh/~tester/api/CreateReference \x7b\"path\":\"some/file/path.txt\",\"url\":\"http://bing.com/search?q=dotnet\"\x7d" (Response.mk 200 "" serverStateEmpty),
  Prod.mk "POST /apps/sciencemesh/~tester/api/Shutdown " (Response.mk 200 "" serverStateEmpty),
  Prod.mk "POST /apps/sciencemesh/~tester/api/SetArbitraryMetadata \x7b\"ref\":\x7b\"resource_id\":\x7b\"storage_id\":\"storage-id\",\"opaque_id\":\"opaque-id\"\x7d,\"path\":\"some/file/path.txt\"\x7d,\"md\":\x7b\"metadata\":\x7b\"arbi\":\"trary\",\"meta\":\"data\"\x7d\x7d\x7d" (Response.mk 200 "" serverStateEmpty),
  Prod.mk "POST /apps/sciencemesh/~tester/api/UnsetArbitraryMetadata \x7b\"ref\":\x7b\"resource_id\":\x7b\"storage_id\":\"storage-id\",\"opaque_id\":\"opaque-id\"\x7d,\"path\":\"some/file/path.txt\"\x7d,\"keys\":[\"arbi\"]\x7d" (Response.mk 200 "" serverStateEmpty),
  Prod.mk "POST /apps/sciencemesh/~tester/api/ListStorageSpaces [\x7b\"type\":3,\"Term\":\x7b\"Owner\":\x7b\"idp\":\"0.0.0.0:19000\",\"opaque_id\":\"f7fbf8c8-139b-4376-b307-cf0a8c2d0d9c\",\"type\":1\x7d\x7d\x7d,\x7b\"type\":2,\"Term\":\x7b\"Id\":\x7b\"opaque_id\":\"opaque-id\"\x7d\x7d\x7d,\x7b\"type\":4,\"Term\":\x7b\"SpaceType\":\"home\"\x7d\x7d]" (Response.mk 200 "\t[\x7b\"opaque\":\x7b\"map\":\x7b\"bar\":\x7b\"value\":\"c2FtYQ==\"\x7d,\"foo\":\x7b\"value\":\"c2FtYQ==\"\x7d\x7d\x7d,\"id\":\x7b\"opaque_id\":\"some-opaque-storage-space-id\"\x7d,\"owner\":\x7b\"id\":\x7b\"idp\":\"some-idp\",\"opaque_id\":\"some-opaque-user-id\",\"type\":1\x7d\x7d,\"root\":\x7b\"storage_id\":\"some-storage-ud\",\"opaque_id\":\"some-opaque-root-id\"\x7d,\"name\":\"My Storage Space\",\"quota\":\x7b\"quota_max_bytes\":456,\"quota_max_files\":123\x7d,\"space_type\":\"home\",\"mtime\":\x7b\"seconds\":1234567890\x7d\x7d]" serverStateEmpty),
  Prod.mk "POST /apps/sciencemesh/~tester/api/CreateStorageSpace \x7b\"opaque\":\x7b\"map\":\x7b\"bar\":\x7b\"value\":\"c2FtYQ==\"\x7d,\"foo\":\x7b\"value\":\"c2FtYQ==\"\x7d\x7d\x7d,\"owner\":\x7b\"id\":\x7b\"idp\":\"some-idp\",\"opaque_id\":\"some-opaque-user-id\",\"type\":1\x7d\x7d,\"type\":\"home\",\"name\":\"My Storage Space\",\"quota\":\x7b\"quota_max_bytes\":456,\"quota_max_files\":123\x7d\x7d" (Response.mk 200 "\x7b\"opaque\":\x7b\"map\":\x7b\"bar\":\x7b\"value\":\"c2FtYQ==\"\x7d,\"foo\":\x7b\"value\":\"c2FtYQ==\"\x7d\x7d\x7d,\"owner\":\x7b\"id\":\x7b\"idp\":\"some-idp\",\"opaque_id\":\"some-opaque-user-id\",\"type\":1\x7d\x7d,\"type\":\"home\",\"name\":\"My Storage Space\",\"quota\":\x7b\"quota_max_bytes\":456,\"quota_max_files\":123\x7d\x7d" serverStateEmpty)
]

/-- An incoming HTTP request as the mock observes it: method, URL (path) and
the request body read into a string. -/
structure Request where
  method : String
  url : String
  body : String
deriving DecidableEq, Repr

/-- The call signature `fmt.Sprintf("%s %s %s", r.Method, r.URL, buf.String())`. -/
def requestKey (r : Request) : String :=
  r.method ++ " " ++ r.url ++ " " ++ r.body

/-- The extended signature `fmt.Sprintf("%s %s %s %s", r.Method, r.URL, buf.String(), serverState)`. -/
def requestKeyWithState (r : Request) (state : String) : String :=
  r.method ++ " " ++ r.url ++ " " ++ r.body ++ " " ++ state

/-- Go map indexing: the entry stored at `key`, or the zero value when absent. -/
def lookupResponse (table : List (String × Response)) (key : String) : Response :=
  match table.find? (fun p => p.1 = key) with
  | some p => p.2
  | none => zeroResponse

/-- What one handled request produces: the written status code and body, the
new global server state, and the updated call log. -/
structure MockResult where
  status : Nat
  body : String
  newState : String
  log : List String
deriving DecidableEq, Repr

/-- One round of the mock handler, following `GetNextcloudServerMock` line by
line: append the plain signature to the call log; look the signature up in the
table; on a miss, look up the signature extended with the current state; on a
second miss substitute the diagnostic response. The written status code comes
from the (possibly substituted) response, while the new state and the written
body are re-read from the table at the final key. -/
def mockStep (table : List (String × Response)) (state : String) (log : List String)
    (r : Request) : MockResult :=
  let key1 := requestKey r
  let log2 := log ++ [key1]
  let resp1 := lookupResponse table key1
  let key2 := if resp1 = zeroResponse then requestKeyWithState r state else key1
  let resp2 := if resp1 = zeroResponse then lookupResponse table key2 else resp1
  let resp3 := if resp2 = zeroResponse then
      ⟨200, "response not defined! " ++ key2, serverStateEmpty⟩
    else resp2
  let st1 := (lookupResponse table key2).newServerState
  let st2 := if st1 = "" then serverStateError else st1
  ⟨resp3.code, (lookupResponse table key2).body, st2, log2⟩

/-- Run the mock over a finite sequence of requests, threading the global
server state and the call log; returns the list of (status, body) responses,
the final state and the final log. -/
def runMock (state : String) (log : List String) :
    List Request → List (Nat × String) × String × List String
  | [] => ([], state, log)
  | r :: rs =>
    let res := mockStep responses state log r
    let rec2 := runMock res.newState res.log rs
    ((res.status, res.body) :: rec2.1, rec2.2.1, rec2.2.2)


/-- pat is a prefix of s (on character lists, so that it evaluates by
kernel reduction). -/
def hasPrefixChars : List Char → List Char → Bool
  | _, [] => true
  | [], _ :: _ => false
  | c :: cs, p :: ps => c == p && hasPrefixChars cs ps

/-- pat occurs somewhere in s (character-list version). -/
def containsChars (pat : List Char) : List Char → Bool
  | [] => hasPrefixChars [] pat
  | c :: cs => hasPrefixChars (c :: cs) pat || containsChars pat cs

/-- Substring containment: pat occurs somewhere in s. -/
def containsSubstr (s pat : String) : Bool :=
  containsChars pat.data s.data

/-- suff is a suffix of s. -/
def endsWithSubstr (s suff : String) : Bool :=
  hasPrefixChars s.data.reverse suff.data.reverse

/-!
Embedding of the storage driver `pkg/storage/fs/nextcloud/nextcloud.go`.

The driver file in the repository is a stub: its `do` helper only prints the
action and returns the pair ("printed", nil), and no operation except
`doUpload` touches an HTTP client. Each operation below is translated into a
pure function returning the trace of `do` actions and wire requests it
produces, together with its result and error (Go `error` becomes
`Option String`, `none` standing for nil).
-/

/-- cs3 `provider.ResourceId`: opaque `(storage_id, opaque_id)` pair
(external cs3apis type, modelled with the fields the driver uses). -/
structure ResourceId where
  storageId : String
  opaqueId : String
deriving DecidableEq

/-- cs3 `provider.Reference`: a resource id and/or a path (external cs3apis
type; the pointer-valued resource id becomes an `Option`). -/
structure Reference where
  resourceId : Option ResourceId
  path : String
deriving DecidableEq

/-- cs3 `provider.ArbitraryMetadata`: a string-to-string metadata map,
modelled as a key-sorted association list (Go serializes map keys sorted). -/
structure ArbitraryMetadata where
  metadata : List (String × String)
deriving DecidableEq

/-- cs3 `provider.Grant` (external cs3apis type, modelled with the fields the
spec names; the driver stub never reads its argument of this type). -/
structure Grant where
  grantee : String
  permissions : List (String × Bool)
deriving DecidableEq

/-- cs3 `provider.ResourceInfo` (external cs3apis type, modelled with the
fields the driver stub populates and the tests inspect). -/
structure ResourceInfo where
  id : String
  path : String
  typ : Nat
  etag : String
  mimeType : String
  size : Nat
  mtimeSeconds : Nat
  arbitraryMetadata : Option ArbitraryMetadata
deriving DecidableEq

/-- cs3 `provider.FileVersion` (external cs3apis type, modelled minimally). -/
structure FileVersion where
  key : String
  size : Nat
  mtime : Nat
  etag : String
deriving DecidableEq

/-- cs3 `provider.RecycleItem` (external cs3apis type, modelled minimally). -/
structure RecycleItem where
  key : String
  path : String
  size : Nat
  deletionTimeSeconds : Nat
deriving DecidableEq

/-- A JSON string literal (none of the values the driver serializes need
character escaping). -/
def jsonStr (s : String) : String := "\"" ++ s ++ "\""

/-- A JSON object from named fields; a `none` value is an omitted field
(Go encoding/json `omitempty`). -/
def jsonFields (fs : List (String × Option String)) : String :=
  "\x7b" ++
    String.intercalate ","
      (fs.filterMap (fun f => f.2.map (fun v => jsonStr f.1 ++ ":" ++ v))) ++
  "\x7d"

/-- `json.Marshal` of a `provider.ResourceId` (protobuf json tags
`storage_id,omitempty` and `opaque_id,omitempty`). -/
def jsonResourceId (id : ResourceId) : String :=
  jsonFields
    [("storage_id", if id.storageId = "" then none else some (jsonStr id.storageId)),
     ("opaque_id", if id.opaqueId = "" then none else some (jsonStr id.opaqueId))]

/-- `json.Marshal` of a `provider.Reference` (json tags `resource_id,omitempty`
and `path,omitempty`). -/
def jsonReference (r : Reference) : String :=
  jsonFields
    [("resource_id", r.resourceId.map jsonResourceId),
     ("path", if r.path = "" then none else some (jsonStr r.path))]

/-- `json.Marshal` of a `provider.ArbitraryMetadata` (json tag
`metadata,omitempty`). -/
def jsonArbitraryMetadata (md : ArbitraryMetadata) : String :=
  jsonFields
    [("metadata",
      if md.metadata.isEmpty then none
      else some (jsonFields (md.metadata.map (fun p => (p.1, some (jsonStr p.2))))))]

/-- The `Action` struct of the driver: verb and serialized argument. -/
structure Action where
  verb : String
  argS : String
deriving DecidableEq

/-- A wire request the driver issues. -/
structure HTTPRequest where
  method : String
  url : String
  body : String
deriving DecidableEq

/-- Everything observable a driver operation does on the way out: the `do`
actions it performs and the wire requests it issues. -/
structure OpTrace where
  actions : List Action
  httpRequests : List HTTPRequest
deriving DecidableEq

/-- The driver's `do` helper (named `ncDo` since `do` is reserved in Lean): it
prints the endpoint and the action and unconditionally returns the pair
("printed", nil); it issues no wire request. -/
def ncDo (a : Action) : OpTrace × String × Option String :=
  (⟨[a], []⟩, "printed", none)

/-- The driver's `doUpload` helper: it ignores its reader argument and issues
one PUT to the hardcoded URL `http://api.example.com/v1/user`. Its request
body expression `bytes.NewBuffer(json)` names the imported `encoding/json`
package as a value and does not compile as Go, so the body is kept abstract
as the parameter `b`. -/
def doUpload (b : String) : OpTrace :=
  ⟨[], [⟨"PUT", "http://api.example.com/v1/user", b⟩]⟩

/-- `GetHome`: do("GetHome", ""), result "printed". -/
def ncGetHome : OpTrace × String × Option String :=
  ncDo ⟨"GetHome", ""⟩

/-- `CreateHome`: do("CreateHome", ""), returns only the error. -/
def ncCreateHome : OpTrace × Option String :=
  let r := ncDo ⟨"CreateHome", ""⟩
  (r.1, r.2.2)

/-- `CreateDir`: the stub takes a plain path string `fn` (not a reference) and
only performs do("CreateDir", fn). -/
def ncCreateDir (fn : String) : OpTrace × Option String :=
  let r := ncDo ⟨"CreateDir", fn⟩
  (r.1, r.2.2)

/-- `Delete`: marshals the reference and performs do("Delete", s). -/
def ncDelete (ref : Reference) : OpTrace × Option String :=
  let r := ncDo ⟨"Delete", jsonReference ref⟩
  (r.1, r.2.2)

/-- `Move`: marshals only `newRef` (`s, _ := json.Marshal(newRef)`) and
performs do("Move", s); `oldRef` is never serialized. -/
def ncMove (oldRef newRef : Reference) : OpTrace × Option String :=
  let r := ncDo ⟨"Move", jsonReference newRef⟩
  (r.1, r.2.2)

/-- `GetMD`: performs do("GetMD", marshal ref) and returns a hardcoded
`ResourceInfo` for the fictitious file `some-file.txt` with etag
"some-etag", MIME type "application/octet-stream" and nil arbitrary
metadata; the error is nil. -/
def ncGetMD (ref : Reference) (mdKeys : List String) :
    OpTrace × ResourceInfo × Option String :=
  let r := ncDo ⟨"GetMD", jsonReference ref⟩
  (r.1, ⟨"fileid-some-file.txt", "some-file.txt", 1, "some-etag",
         "application/octet-stream", 0, 1234567890, none⟩, none)

/-- `ListFolder`: do("ListFolder", marshal ref); returns a nil slice. -/
def ncListFolder (ref : Reference) (mdKeys : List String) :
    OpTrace × Option (List ResourceInfo) × Option String :=
  let r := ncDo ⟨"ListFolder", jsonReference ref⟩
  (r.1, none, r.2.2)

/-- `Upload`: marshals the reference, calls `doUpload` (discarding its
result), then do("Upload", s). The reader content `content` is never read by
the stub; `b` is the abstract body of `doUpload`'s PUT. -/
def ncUpload (ref : Reference) (content : String) (b : String) :
    OpTrace × Option String :=
  let u := doUpload b
  let d := ncDo ⟨"Upload", jsonReference ref⟩
  (⟨u.actions ++ d.1.actions, u.httpRequests ++ d.1.httpRequests⟩, d.2.2)

/-- `Download`: do("Download", marshal ref); returns a nil reader. -/
def ncDownload (ref : Reference) : OpTrace × Option String × Option String :=
  let r := ncDo ⟨"Download", jsonReference ref⟩
  (r.1, none, r.2.2)

/-- `ListRevisions`: do("ListRevisions", marshal ref); returns a nil slice. -/
def ncListRevisions (ref : Reference) :
    OpTrace × Option (List FileVersion) × Option String :=
  let r := ncDo ⟨"ListRevisions", jsonReference ref⟩
  (r.1, none, r.2.2)

/-- `DownloadRevision`: do("DownloadRevision", marshal ref); nil reader. -/
def ncDownloadRevision (ref : Reference) (key : String) :
    OpTrace × Option String × Option String :=
  let r := ncDo ⟨"DownloadRevision", jsonReference ref⟩
  (r.1, none, r.2.2)

/-- `RestoreRevision`: do("RestoreRevision", marshal ref); key unused. -/
def ncRestoreRevision (ref : Reference) (key : String) : OpTrace × Option String :=
  let r := ncDo ⟨"RestoreRevision", jsonReference ref⟩
  (r.1, r.2.2)

/-- `ListRecycle`: do("ListRecycle", ""); returns a nil slice. -/
def ncListRecycle : OpTrace × Option (List RecycleItem) × Option String :=
  let r := ncDo ⟨"ListRecycle", ""⟩
  (r.1, none, r.2.2)

/-- `RestoreRecycleItem`: the stub takes `restoreRef` as a plain string and
marshals it as a JSON string; key unused. -/
def ncRestoreRecycleItem (key : String) (restoreRef : String) :
    OpTrace × Option String :=
  let r := ncDo ⟨"RestoreRecycleItem", jsonStr restoreRef⟩
  (r.1, r.2.2)

/-- `PurgeRecycleItem`: marshals the key as a JSON string. -/
def ncPurgeRecycleItem (key : String) : OpTrace × Option String :=
  let r := ncDo ⟨"PurgeRecycleItem", jsonStr key⟩
  (r.1, r.2.2)

/-- `EmptyRecycle`: do("EmptyRecycle", ""). -/
def ncEmptyRecycle : OpTrace × Option String :=
  let r := ncDo ⟨"EmptyRecycle", ""⟩
  (r.1, r.2.2)

/-- `GetPathByID`: do("GetPathByID", marshal id); returns the hardcoded
string "sorry". -/
def ncGetPathByID (id : ResourceId) : OpTrace × String × Option String :=
  let r := ncDo ⟨"GetPathByID", jsonResourceId id⟩
  (r.1, "sorry", r.2.2)

/-- `AddGrant`: marshals the reference only; the grant is never read. -/
def ncAddGrant (ref : Reference) (g : Grant) : OpTrace × Option String :=
  let r := ncDo ⟨"AddGrant", jsonReference ref⟩
  (r.1, r.2.2)

/-- `RemoveGrant`: marshals the reference only. -/
def ncRemoveGrant (ref : Reference) (g : Grant) : OpTrace × Option String :=
  let r := ncDo ⟨"RemoveGrant", jsonReference ref⟩
  (r.1, r.2.2)

/-- `UpdateGrant`: marshals the reference only. -/
def ncUpdateGrant (ref : Reference) (g : Grant) : OpTrace × Option String :=
  let r := ncDo ⟨"UpdateGrant", jsonReference ref⟩
  (r.1, r.2.2)

/-- `ListGrants`: do("ListGrants", marshal ref); returns a nil slice. -/
def ncListGrants (ref : Reference) :
    OpTrace × Option (List Grant) × Option String :=
  let r := ncDo ⟨"ListGrants", jsonReference ref⟩
  (r.1, none, r.2.2)

/-- `GetQuota`: do("GetQuota", ""); returns (0, 0). -/
def ncGetQuota : OpTrace × (Nat × Nat) × Option String :=
  let r := ncDo ⟨"GetQuota", ""⟩
  (r.1, (0, 0), r.2.2)

/-- `CreateReference`: passes the raw path as the argument (no marshal); the
target URI is never read. -/
def ncCreateReference (path : String) (targetURI : String) : OpTrace × Option String :=
  let r := ncDo ⟨"CreateReference", path⟩
  (r.1, r.2.2)

/-- `Shutdown`: do("Shutdown", ""). -/
def ncShutdown : OpTrace × Option String :=
  let r := ncDo ⟨"Shutdown", ""⟩
  (r.1, r.2.2)

/-- `SetArbitraryMetadata`: marshals the metadata argument. -/
def ncSetArbitraryMetadata (ref : Reference) (md : ArbitraryMetadata) :
    OpTrace × Option String :=
  let r := ncDo ⟨"SetArbitraryMetadata", jsonArbitraryMetadata md⟩
  (r.1, r.2.2)

/-- `UnsetArbitraryMetadata`: marshals the reference; keys unused. -/
def ncUnsetArbitraryMetadata (ref : Reference) (keys : List String) :
    OpTrace × Option String :=
  let r := ncDo ⟨"UnsetArbitraryMetadata", jsonReference ref⟩
  (r.1, r.2.2)

/-- The reference the CreateDir/Delete/GetMD conformance tests use. -/
def testRef : Reference := ⟨some ⟨"storage-id", "opaque-id"⟩, "/some/path"⟩

/-- The old reference of the Move conformance test. -/
def testMoveOldRef : Reference := ⟨some ⟨"storage-id-1", "opaque-id-1"⟩, "/some/old/path"⟩

/-- The new reference of the Move conformance test. -/
def testMoveNewRef : Reference := ⟨some ⟨"storage-id-2", "opaque-id-2"⟩, "/some/new/path"⟩

/-- The signature of the GetMD fixture for `/some/path` in the mock table. -/
def getMDFixtureKey : String :=
  "POST /apps/sciencemesh/~tester/api/GetMD \x7b\"ref\":\x7b\"resource_id\":\x7b\"storage_id\":\"storage-id\",\"opaque_id\":\"opaque-id\"\x7d,\"path\":\"/some/path\"\x7d,\"mdKeys\":[\"val1\",\"val2\",\"val3\"]\x7d"

/-- An unmodeled request: its signature is in the table neither as-is nor
with any of the server states appended. -/
def unmatchedReq : Request := ⟨"GET", "/nope", "x"⟩

/-!
Theorems. C1-C3 and C8 concern the mock's dispatch (`mockStep`, `runMock`);
C4-C7, C9 and C10 concern the driver stub.
-/

/-- C1 (counterexample): for the concrete request GET /nope x, absent from the
table both as-is and with the current state EMPTY appended, the mock answers
status 200 and moves to the ERROR state, but the body it writes is the empty
string - the handler writes `responses[key].body` for the absent key, i.e. the
zero entry, not the diagnostic response it constructed - so the body does not
contain the unmatched signature (neither the plain nor the extended one). -/
theorem mock_unmatched_body_lacks_signature :
    lookupResponse responses (requestKey unmatchedReq) = zeroResponse ∧
    lookupResponse responses (requestKeyWithState unmatchedReq serverStateEmpty) = zeroResponse ∧
    (mockStep responses serverStateEmpty [] unmatchedReq).status = 200 ∧
    (mockStep responses serverStateEmpty [] unmatchedReq).newState = serverStateError ∧
    (mockStep responses serverStateEmpty [] unmatchedReq).body = "" ∧
    containsSubstr (mockStep responses serverStateEmpty [] unmatchedReq).body
      (requestKey unmatchedReq) = false ∧
    containsSubstr (mockStep responses serverStateEmpty [] unmatchedReq).body
      (requestKeyWithState unmatchedReq serverStateEmpty) = false := by
  decide

/-- C1 (amended): a request absent from the table both as-is and with the
current state appended always gets status 200 and an empty body, and leaves
the state at the sentinel ERROR; the handler never fails such a request. -/
theorem mock_unmatched_request_behavior (st : String) (log : List String) (r : Request)
    (h1 : lookupResponse responses (requestKey r) = zeroResponse)
    (h2 : lookupResponse responses (requestKeyWithState r st) = zeroResponse) :
    (mockStep responses st log r).status = 200 ∧
    (mockStep responses st log r).body = "" ∧
    (mockStep responses st log r).newState = serverStateError := by
  simp [mockStep, h1, h2, zeroResponse, serverStateError]

/-- Witness for C1 (amended) at the concrete request GET /nope x. -/
theorem mock_unmatched_request_behavior_witness :
    (mockStep responses serverStateEmpty [] unmatchedReq).status = 200 ∧
    (mockStep responses serverStateEmpty [] unmatchedReq).body = "" ∧
    (mockStep responses serverStateEmpty [] unmatchedReq).newState = serverStateError :=
  mock_unmatched_request_behavior serverStateEmpty [] unmatchedReq (by decide) (by decide)

/-- C2: dispatch tries the plain signature first; only on a miss does it try
the signature with the current state appended; the found entry supplies the
written status code and body and overwrites the state, an empty next-state
field becoming the sentinel ERROR. -/
theorem mock_dispatch_lookup_order (table : List (String × Response)) (st : String)
    (log : List String) (r : Request) :
    (lookupResponse table (requestKey r) ≠ zeroResponse →
      mockStep table st log r =
        ⟨(lookupResponse table (requestKey r)).code,
         (lookupResponse table (requestKey r)).body,
         (if (lookupResponse table (requestKey r)).newServerState = "" then serverStateError
          else (lookupResponse table (requestKey r)).newServerState),
         log ++ [requestKey r]⟩) ∧
    (lookupResponse table (requestKey r) = zeroResponse →
     lookupResponse table (requestKeyWithState r st) ≠ zeroResponse →
      mockStep table st log r =
        ⟨(lookupResponse table (requestKeyWithState r st)).code,
         (lookupResponse table (requestKeyWithState r st)).body,
         (if (lookupResponse table (requestKeyWithState r st)).newServerState = ""
            then serverStateError
          else (lookupResponse table (requestKeyWithState r st)).newServerState),
         log ++ [requestKey r]⟩) := by
  constructor
  · intro h1
    simp [mockStep, h1]
  · intro h1 h2
    simp [mockStep, h1, h2]

/-- Witness for C2 at the tester GetHome request (a primary-table hit). -/
theorem mock_dispatch_lookup_order_witness :
    lookupResponse responses (requestKey ⟨"POST", "/apps/sciencemesh/~tester/api/GetHome", ""⟩)
      ≠ zeroResponse ∧
    mockStep responses serverStateEmpty [] ⟨"POST", "/apps/sciencemesh/~tester/api/GetHome", ""⟩ =
      ⟨200, "yes we are", serverStateHome, ["POST /apps/sciencemesh/~tester/api/GetHome "]⟩ := by
  have h : lookupResponse responses
      (requestKey ⟨"POST", "/apps/sciencemesh/~tester/api/GetHome", ""⟩) ≠ zeroResponse := by
    decide
  refine ⟨h, ?_⟩
  rw [(mock_dispatch_lookup_order responses serverStateEmpty []
    ⟨"POST", "/apps/sciencemesh/~tester/api/GetHome", ""⟩).1 h]
  decide

set_option maxHeartbeats 4000000 in
/-- C3: replaying the same request sequence from the same starting state gives
the same responses, final state and log, and the transition table has no two
entries with the same signature. -/
theorem mock_replay_deterministic :
    (∀ (st : String) (reqs : List Request)
        (out1 out2 : List (Nat × String)) (fin1 fin2 : String) (log1 log2 : List String),
      runMock st [] reqs = (out1, fin1, log1) →
      runMock st [] reqs = (out2, fin2, log2) →
      out1 = out2 ∧ fin1 = fin2 ∧ log1 = log2) ∧
    (responses.map Prod.fst).Nodup := by
  constructor
  · intro st reqs out1 out2 fin1 fin2 log1 log2 h1 h2
    rw [h1] at h2
    injection h2 with h2a h2bc
    injection h2bc with h2b h2c
    exact ⟨h2a, h2b, h2c⟩
  · decide

/-- Witness for C3: one run of the tester GetHome call. -/
theorem mock_replay_deterministic_witness :
    ([((200 : Nat), "yes we are")] = [((200 : Nat), "yes we are")]) ∧
    (serverStateHome = serverStateHome) ∧
    (["POST /apps/sciencemesh/~tester/api/GetHome "] =
      ["POST /apps/sciencemesh/~tester/api/GetHome "]) :=
  mock_replay_deterministic.1 serverStateEmpty
    [⟨"POST", "/apps/sciencemesh/~tester/api/GetHome", ""⟩]
    _ _ _ _ _ _ (by decide) (by decide)

/-- C8: each handled request appends exactly its plain signature (never the
state-extended key) to the call log, regardless of how dispatch resolves, so
over a whole run the log equals the arrival-ordered signatures. -/
theorem mock_call_log_order :
    (∀ (table : List (String × Response)) (st : String) (log : List String) (r : Request),
      (mockStep table st log r).log = log ++ [requestKey r]) ∧
    (∀ (st : String) (log : List String) (reqs : List Request),
      (runMock st log reqs).2.2 = log ++ reqs.map requestKey) := by
  constructor
  · intro table st log r
    rfl
  · intro st log reqs
    induction reqs generalizing st log with
    | nil => simp [runMock]
    | cons r rs ih =>
      have hstep : (mockStep responses st log r).log = log ++ [requestKey r] := rfl
      simp [runMock, ih, hstep]

/-- C4 (code evaluation): the driver stub's CreateDir takes a plain path
string, performs no HTTP request whatsoever (its do helper only prints), and
returns nil error; the conformance table nevertheless holds the POST entry
the tests expect for the reference {storage-id, opaque-id, /some/path}. -/
theorem createDir_stub_issues_no_request :
    (∀ fn, (ncCreateDir fn).1.httpRequests = [] ∧ (ncCreateDir fn).2 = none) ∧
    (ncCreateDir "/some/path").1.httpRequests.length = 0 ∧
    lookupResponse responses
      ("POST /apps/sciencemesh/~tester/api/CreateDir " ++ jsonReference testRef) =
      ⟨201, "", serverStateEmpty⟩ := by
  refine ⟨fun fn => ⟨rfl, rfl⟩, rfl, by decide⟩

/-- C5 (code evaluation): the driver stub's Upload issues exactly one PUT, but
to the hardcoded URL http://api.example.com/v1/user - which does not end in
/Upload/some/file/path.txt - and it never reads the byte stream, so the body
cannot be the stream content; the conformance table nevertheless holds the
expected PUT entry with body shiny!. -/
theorem upload_stub_put_misses_endpoint :
    (∀ ref content b, (ncUpload ref content b).1.httpRequests =
      [⟨"PUT", "http://api.example.com/v1/user", b⟩]) ∧
    endsWithSubstr "http://api.example.com/v1/user" "/Upload/some/file/path.txt" = false ∧
    (∀ ref b c1 c2, ncUpload ref c1 b = ncUpload ref c2 b) ∧
    lookupResponse responses
      "PUT /apps/sciencemesh/~tester/api/Upload/some/file/path.txt shiny!" =
      ⟨200, "", serverStateEmpty⟩ := by
  refine ⟨fun ref content b => rfl, by decide, fun ref b c1 c2 => rfl, by decide⟩

/-- C6 (code evaluation): the driver stub's GetMD ignores the remote reply and
returns the hardcoded etag some-etag, MIME type application/octet-stream and
nil arbitrary metadata; moreover the mock fixture for /some/path carries etag
deadbeef and MIME type text/plain and a metadata map without foo:bar, so
nothing produces the in-json-etag / in-json-mimetype /
{"metadata":{"foo":"bar"}} values the tests assert. -/
theorem getMD_stub_contradicts_fixture_and_test :
    (∀ ref mdKeys, (ncGetMD ref mdKeys).2.1.etag = "some-etag" ∧
      (ncGetMD ref mdKeys).2.1.mimeType = "application/octet-stream" ∧
      (ncGetMD ref mdKeys).2.1.arbitraryMetadata = none ∧
      (ncGetMD ref mdKeys).2.2 = none) ∧
    (("some-etag" : String) == "in-json-etag") = false ∧
    (lookupResponse responses getMDFixtureKey).code = 200 ∧
    containsSubstr (lookupResponse responses getMDFixtureKey).body
      "\"etag\":\"deadbeef\"" = true ∧
    containsSubstr (lookupResponse responses getMDFixtureKey).body
      "\"mime_type\":\"text/plain\"" = true ∧
    containsSubstr (lookupResponse responses getMDFixtureKey).body "in-json-etag" = false ∧
    containsSubstr (lookupResponse responses getMDFixtureKey).body "in-json-mimetype" = false ∧
    containsSubstr (lookupResponse responses getMDFixtureKey).body
      "\"foo\":\"bar\"" = false := by
  refine ⟨fun ref mdKeys => ⟨rfl, rfl, rfl, rfl⟩, by decide, by decide, by decide, by decide,
    by decide, by decide, by decide⟩

/-- C7 (code evaluation): the driver stub's Move serializes only the new
reference - the encoded body is byte-identical for any two old references, it
is a single reference object, and for the conformance test's references it
contains neither the old reference's ids nor any from/oldRef field name. -/
theorem move_stub_encodes_only_new_reference :
    (∀ o n, (ncMove o n).1.actions = [⟨"Move", jsonReference n⟩]) ∧
    (∀ o1 o2 n, ncMove o1 n = ncMove o2 n) ∧
    jsonReference testMoveNewRef =
      "\x7b\"resource_id\":\x7b\"storage_id\":\"storage-id-2\",\"opaque_id\":\"opaque-id-2\"\x7d,\"path\":\"/some/new/path\"\x7d" ∧
    containsSubstr (jsonReference testMoveNewRef) "storage-id-1" = false ∧
    containsSubstr (jsonReference testMoveNewRef) "oldRef" = false ∧
    containsSubstr (jsonReference testMoveNewRef) "\"from\"" = false := by
  refine ⟨fun o n => rfl, fun o1 o2 n => rfl, by decide, by decide, by decide, by decide⟩

/-- C9: every success-or-failure operation of the driver stub returns nil
error for all arguments, because the do helper unconditionally returns the
pair ("printed", nil). -/
theorem stub_ops_never_return_error :
    (∀ a : Action, (ncDo a).2.1 = "printed" ∧ (ncDo a).2.2 = none) ∧
    ncCreateHome.2 = none ∧
    (∀ fn, (ncCreateDir fn).2 = none) ∧
    (∀ ref, (ncDelete ref).2 = none) ∧
    (∀ o n, (ncMove o n).2 = none) ∧
    (∀ ref content b, (ncUpload ref content b).2 = none) ∧
    (∀ ref key, (ncRestoreRevision ref key).2 = none) ∧
    (∀ key rref, (ncRestoreRecycleItem key rref).2 = none) ∧
    (∀ key, (ncPurgeRecycleItem key).2 = none) ∧
    ncEmptyRecycle.2 = none ∧
    (∀ ref g, (ncAddGrant ref g).2 = none) ∧
    (∀ ref g, (ncRemoveGrant ref g).2 = none) ∧
    (∀ ref g, (ncUpdateGrant ref g).2 = none) ∧
    (∀ path uri, (ncCreateReference path uri).2 = none) ∧
    ncShutdown.2 = none ∧
    (∀ ref md, (ncSetArbitraryMetadata ref md).2 = none) ∧
    (∀ ref keys, (ncUnsetArbitraryMetadata ref keys).2 = none) :=
  ⟨fun a => ⟨rfl, rfl⟩, rfl, fun _ => rfl, fun _ => rfl, fun _ _ => rfl, fun _ _ _ => rfl,
   fun _ _ => rfl, fun _ _ => rfl, fun _ => rfl, rfl, fun _ _ => rfl, fun _ _ => rfl,
   fun _ _ => rfl, fun _ _ => rfl, rfl, fun _ _ => rfl, fun _ _ => rfl⟩

/-- C10: the result-returning operations of the driver stub yield fixed
constants for all arguments: nil slices, nil readers, GetHome "printed",
GetPathByID "sorry" and GetQuota (0, 0), each with nil error. -/
theorem stub_result_ops_return_constants :
    (∀ ref keys, (ncListFolder ref keys).2.1 = none ∧ (ncListFolder ref keys).2.2 = none) ∧
    (∀ ref, (ncListRevisions ref).2.1 = none ∧ (ncListRevisions ref).2.2 = none) ∧
    (ncListRecycle.2.1 = none ∧ ncListRecycle.2.2 = none) ∧
    (∀ ref, (ncListGrants ref).2.1 = none ∧ (ncListGrants ref).2.2 = none) ∧
    (∀ ref, (ncDownload ref).2.1 = none ∧ (ncDownload ref).2.2 = none) ∧
    (∀ ref key, (ncDownloadRevision ref key).2.1 = none ∧
      (ncDownloadRevision ref key).2.2 = none) ∧
    (ncGetHome.2.1 = "printed" ∧ ncGetHome.2.2 = none) ∧
    (∀ id, (ncGetPathByID id).2.1 = "sorry" ∧ (ncGetPathByID id).2.2 = none) ∧
    (ncGetQuota.2.1 = (0, 0) ∧ ncGetQuota.2.2 = none) :=
  ⟨fun _ _ => ⟨rfl, rfl⟩, fun _ => ⟨rfl, rfl⟩, ⟨rfl, rfl⟩, fun _ => ⟨rfl, rfl⟩,
   fun _ => ⟨rfl, rfl⟩, fun _ _ => ⟨rfl, rfl⟩, ⟨rfl, rfl⟩, fun _ => ⟨rfl, rfl⟩, ⟨rfl, rfl⟩⟩

end Nextcloud
